import Mathlib

/-!
Shallow embedding of the Twickell PDF-to-XLSX job service
(src/app/app.py and src/workers/queue_worker.py).

Filesystem state is modelled explicitly: job records and bridge results
are maps from id to record, the upload files and the bridge-queue request
files are lists of names (a name occurs once per file on a real
filesystem; writes insert the name if absent), and the free-sample ledger
file is a three-valued object (missing, parseable content, corrupted).
Timestamps are seconds since the epoch (`Nat`); `parse_iso` of the source
is the identity under this representation.
-/

namespace Twickell

/-! Constants from src/app/app.py and src/workers/queue_worker.py. -/

def MAX_PAGES : Nat := 200

def FREE_SAMPLE_MAX_PAGES : Nat := 5

def PRICE_BLOCK_PAGES : Nat := 25

def PRICE_PER_BLOCK : Nat := 25

def DEFAULT_RETENTION_DAYS : Int := 7

def RETENTION_ZERO_DONE_BUFFER_SECONDS : Int := 3600

def SECONDS_PER_DAY : Int := 86400

/-- `calc_base_amount` (app.py:63-66): `int(math.ceil(pages / PRICE_BLOCK_PAGES)) * PRICE_PER_BLOCK`,
with ceiling division rendered exactly on naturals. -/
def calc_base_amount (pages : Nat) : Nat :=
  ((pages + (PRICE_BLOCK_PAGES - 1)) / PRICE_BLOCK_PAGES) * PRICE_PER_BLOCK

/-- A job record as persisted in `jobs/<id>.json` (app.py:276-294), plus the
fields the worker adds (`paths.output_xlsx`, `paths.bundle_zip`, `done_at`).
`created_at`/`done_at` are `none` when the field is missing or empty
(the worker treats a falsy string the same as a missing field). The
`retention_days` field is `none` when absent, which the reaper defaults
to 7. -/
structure Job where
  id : String
  created_at : Option Nat
  updated_at : Nat
  status : String
  email : String
  pages : Nat
  base_amount_due : Nat
  amount_due : Nat
  paid : Bool
  free_sample_applied : Bool
  retention_days : Option Int
  done_at : Option Nat
  input_pdf : String
  bridge_request : Option String
  output_xlsx : Option String
  bundle_zip : Option String
deriving DecidableEq, Repr

/-- `should_delete` (queue_worker.py:172-189). Terminal-status gate, falsy
`created_at` gate, `retention_days` defaulting to 7, then either the
one-hour-after-done rule (retention 0) or the days-after-creation rule. -/
def should_delete (job : Job) (now : Nat) : Bool :=
  if ¬ (job.status = "done" ∨ job.status = "failed") then false
  else
    match job.created_at with
    | none => false
    | some created_at =>
      let retention_days : Int := job.retention_days.getD 7
      if retention_days = 0 then
        match job.done_at with
        | none => false
        | some done_at =>
          decide ((now : Int) ≥ (done_at : Int) + RETENTION_ZERO_DONE_BUFFER_SECONDS)
      else
        decide ((now : Int) ≥ (created_at : Int) + retention_days * SECONDS_PER_DAY)

/-- A value stored under an email key in the free-sample ledger's `used`
map: either a proper entry `{job_id, ts}` written by
`mark_email_used_free_sample`, or the bare timestamp string the corrupted
fallback stores under the sentinel key. -/
inductive LedgerVal
  | entry (job_id : String) (ts : Nat)
  | raw (ts : Nat)
deriving DecidableEq, Repr

/-- Parsed content of `ledger/free_sample_by_email.json`: the `used` map
from normalized email to its value. -/
structure Ledger where
  used : String → Option LedgerVal

/-- The on-disk state of the ledger file: absent, parseable, or present
but unparseable. -/
inductive LedgerFile
  | missing
  | ok (led : Ledger)
  | corrupted

/-- `read_ledger` (app.py:94-102): missing file yields an empty `used`
map; a corrupted file yields a map holding only the sentinel key
`__CORRUPTED__` bound to the current timestamp. -/
def read_ledger (f : LedgerFile) (now : Nat) : Ledger :=
  match f with
  | .missing => ⟨fun _ => none⟩
  | .ok led => led
  | .corrupted => ⟨fun e => if e = "__CORRUPTED__" then some (.raw now) else none⟩

/-- `email_can_use_free_sample` (app.py:114-117): the email may use the
free sample iff it is not a key of the `used` map of the ledger read. -/
def email_can_use_free_sample (email_norm : String) (f : LedgerFile) (now : Nat) : Bool :=
  ((read_ledger f now).used email_norm).isNone

/-- `mark_email_used_free_sample` (app.py:120-124): read the ledger, bind
the email to `{job_id, ts}` in `used`, write the file back (which makes it
parseable again). -/
def mark_email_used_free_sample (email_norm job_id : String) (f : LedgerFile) (now : Nat) :
    LedgerFile :=
  let led := read_ledger f now
  .ok ⟨fun e => if e = email_norm then some (.entry job_id now) else led.used e⟩

/-- A bridge result file `{job_id, ok, done_at, paths}` (queue_worker.py:166);
paths are recoverable from the job record and elided. -/
structure BridgeResult where
  job_id : String
  ok : Bool
  done_at : Nat
deriving DecidableEq, Repr

/-- Combined filesystem state of the service: job records under `jobs/`,
the ledger file, the stored upload files (by job id: `uploads/<id>/input.pdf`),
the bridge-queue request file names (by job id: `requests/<id>.json`), and
the bridge result files (by job id). On a real filesystem each name occurs
at most once; requests keeps names as a list so that file counts can be
stated. -/
structure Store where
  jobs : String → Option Job
  ledger : LedgerFile
  uploads : List String
  requests : List String
  results : String → Option BridgeResult

/-- `write_job` (app.py:74-76): persist the record under `jobs/<job['id']>.json`
(keyed by the record's own id field, as in the source). -/
def write_job (job : Job) (st : Store) : Store :=
  { st with jobs := fun s => if s = job.id then some job else st.jobs s }

/-- Path of the request file `write_bridge_request` creates for a job
(app.py:141). -/
def bridge_req_path (job_id : String) : String :=
  "bridge_queue/requests/" ++ job_id ++ ".json"

/-- `write_bridge_request` (app.py:127-143) at the store level: writing
`requests/<id>.json` creates the name if absent (overwriting otherwise),
and the path is returned. The request body is a snapshot of the job and
is not consulted by any claim beyond its `job_id`. -/
def write_bridge_request (job : Job) (st : Store) : String × Store :=
  (bridge_req_path job.id,
   { st with requests := if job.id ∈ st.requests then st.requests else job.id :: st.requests })

/-- Errors surfaced by `upload_pdf` as `HTTPException`s. The filename and
PDF-parse failures are transport-level (the page count is a parameter
here) and elided. -/
inductive UploadError
  | valid_email_required
  | retention_days_invalid
  | cap_exceeded
deriving DecidableEq, Repr

/-- `upload_pdf` (app.py:202-311), from the point where the normalized
email, the retention choice and the counted page count are in hand:
validation, saving the upload file, the hard page cap (discarding the
saved file on rejection), pricing, the one-time-free-sample override,
job creation and the conditional ledger write. The pair returned is the
HTTP outcome and the resulting filesystem state (an exception leaves the
side effects already performed in place). `job_id` is the fresh id from
`new_job_id`. -/
def upload_pdf (job_id email_norm : String) (retention_days_i : Int) (pages : Nat)
    (st : Store) (now : Nat) : Except UploadError Job × Store :=
  if email_norm = "" ∨ ¬ '@' ∈ email_norm.data then (.error .valid_email_required, st)
  else if ¬ (retention_days_i = 0 ∨ retention_days_i = 7 ∨ retention_days_i = 30) then
    (.error .retention_days_invalid, st)
  else
    let st1 : Store := { st with uploads := job_id :: st.uploads }
    if MAX_PAGES < pages then
      (.error .cap_exceeded, { st1 with uploads := st1.uploads.erase job_id })
    else
      let base_amount := calc_base_amount pages
      let free_sample_applied :=
        decide (pages ≤ FREE_SAMPLE_MAX_PAGES) && email_can_use_free_sample email_norm st.ledger now
      let amount_due := if free_sample_applied then 0 else base_amount
      let job : Job :=
        { id := job_id
          created_at := some now
          updated_at := now
          status := if amount_due = 0 then "uploaded" else "awaiting_payment"
          email := email_norm
          pages := pages
          base_amount_due := base_amount
          amount_due := amount_due
          paid := decide (amount_due = 0)
          free_sample_applied := free_sample_applied
          retention_days := some retention_days_i
          done_at := none
          input_pdf := "uploads/" ++ job_id ++ "/input.pdf"
          bridge_request := none
          output_xlsx := none
          bundle_zip := none }
      let st2 := write_job job st1
      let st3 :=
        if free_sample_applied then
          { st2 with ledger := mark_email_used_free_sample email_norm job_id st2.ledger now }
        else st2
      (.ok job, st3)

/-- Errors surfaced by `start`. -/
inductive StartError
  | job_not_found
  | payment_required
  | invalid_status (status : String)
deriving DecidableEq, Repr

/-- `start` (app.py:446-463): payment gate, `queued` no-op, status gate,
then status update to `queued`, bridge-request write, and recording of
the request path under the job's paths. -/
def start (job_id : String) (st : Store) (now : Nat) : Except StartError (Job × Store) :=
  match st.jobs job_id with
  | none => .error .job_not_found
  | some job =>
    if job.paid = false then .error .payment_required
    else if job.status = "queued" then .ok (job, st)
    else if ¬ (job.status = "uploaded" ∨ job.status = "paid") then
      .error (.invalid_status job.status)
    else
      let job1 : Job := { job with status := "queued", updated_at := now }
      let st1 := write_job job1 st
      let req := write_bridge_request job1 st1
      let job2 : Job := { job1 with bridge_request := some req.1, updated_at := now }
      .ok (job2, write_job job2 req.2)

/-- `process_request` (queue_worker.py:137-170), for a request file whose
body names `job_id`. The conversion (`generate_xlsx_for_job` plus
`build_zip_bundle`, both delegations to third-party libraries) is the
parameter `convert`, returning the output path or raising. A missing job
record drops the request without a result; a successful conversion writes
the updated job (keyed by the request's job id, as `write_json(jp, job)`
is), writes a result file, then deletes the request. A raised exception
propagates with no state change (it occurs before any write). -/
def process_request (convert : Job → Except String String) (job_id : String)
    (st : Store) (now : Nat) : Except String Store :=
  match st.jobs job_id with
  | none => .ok { st with requests := st.requests.erase job_id }
  | some job =>
    match convert job with
    | .error e => .error e
    | .ok xlsx =>
      let job' : Job :=
        { job with
          status := "done"
          done_at := some now
          output_xlsx := some xlsx
          bundle_zip := some ("outputs/" ++ job_id ++ "/bundle.zip") }
      let res : BridgeResult := { job_id := job_id, ok := true, done_at := now }
      .ok { st with
            jobs := fun s => if s = job_id then some job' else st.jobs s
            results := fun s => if s = job_id then some res else st.results s
            requests := st.requests.erase job_id }

/-- The worker main loop's handling of one request (queue_worker.py:242-247):
run `process_request`; on any exception, log and delete the request file
regardless. -/
def handle_request (convert : Job → Except String String) (job_id : String)
    (st : Store) (now : Nat) : Store :=
  match process_request convert job_id st now with
  | .ok st' => st'
  | .error _ => { st with requests := st.requests.erase job_id }

/-! Low-level filesystem-operation traces, to state how files are
produced (single direct write versus write-to-temporary-then-rename). -/

/-- One filesystem mutation: a (complete) write of a path, or an atomic
`os.replace` rename. -/
inductive FsOp
  | write (path : String) (content : String)
  | replaceOp (src dst : String)
deriving DecidableEq, Repr

/-- The mutations `write_bridge_request` (app.py:127-143) performs on the
queue directory: one direct `Path.write_text` of `requests/<id>.json`. -/
def write_bridge_request_trace (job_id : String) (content : String) : List FsOp :=
  [FsOp.write (bridge_req_path job_id) content]

/-- The mutations `write_json` (queue_worker.py:41-46) performs: write
`<path>.tmp`, then `os.replace` it onto `path`. -/
def write_json_trace (path : String) (content : String) : List FsOp :=
  [FsOp.write (path ++ ".tmp") content, FsOp.replaceOp (path ++ ".tmp") path]

/-- A trace produces `dst` atomically when it is exactly a write of a
distinct temporary name followed by a rename of that name onto `dst`. -/
def atomic_temp_rename (t : List FsOp) (dst : String) : Prop :=
  ∃ tmp c, tmp ≠ dst ∧ t = [FsOp.write tmp c, FsOp.replaceOp tmp dst]

/-! Theorems -/

/-- The exact ceiling of `p / 25` over the rationals agrees with the
natural-number ceiling division used in `calc_base_amount`. -/
theorem nat_ceil_div_25 (p : Nat) (hp : 1 ≤ p) :
    ⌈(p : ℚ) / 25⌉₊ = (p + 24) / 25 := by
  have h25 : (0 : ℚ) < 25 := by norm_num
  have hn1 : 1 ≤ (p + 24) / 25 := by omega
  have h1 : 25 * ((p + 24) / 25 - 1) < p := by omega
  have h2 : p ≤ 25 * ((p + 24) / 25) := by omega
  rw [Nat.ceil_eq_iff (by omega)]
  constructor
  · rw [lt_div_iff₀ h25]
    calc (((p + 24) / 25 - 1 : Nat) : ℚ) * 25
        = ((25 * ((p + 24) / 25 - 1) : Nat) : ℚ) := by push_cast; ring
      _ < p := by exact_mod_cast h1
  · rw [div_le_iff₀ h25]
    calc (p : ℚ) ≤ ((25 * ((p + 24) / 25) : Nat) : ℚ) := by exact_mod_cast h2
      _ = (((p + 24) / 25 : Nat) : ℚ) * 25 := by push_cast; ring

/-- C4: for every `pages ≥ 1` the base price is `ceil(pages / 25) * 25`
currency units; it is never 0, is constant within each 25-page block,
steps up by exactly 25 at each block boundary, and gives 25 at one page
and 50 at twenty-six. -/
theorem calc_base_amount_spec (p : Nat) (hp : 1 ≤ p) :
    calc_base_amount p = ⌈(p : ℚ) / 25⌉₊ * 25
    ∧ calc_base_amount p ≠ 0
    ∧ (p % 25 ≠ 0 → calc_base_amount (p + 1) = calc_base_amount p)
    ∧ (p % 25 = 0 → calc_base_amount (p + 1) = calc_base_amount p + 25)
    ∧ calc_base_amount 1 = 25 ∧ calc_base_amount 26 = 50 := by
  refine ⟨?_, ?_, ?_, ?_, by decide, by decide⟩
  · rw [nat_ceil_div_25 p hp]
    simp [calc_base_amount, PRICE_BLOCK_PAGES, PRICE_PER_BLOCK]
  · simp [calc_base_amount, PRICE_BLOCK_PAGES, PRICE_PER_BLOCK]
    omega
  · intro h
    simp [calc_base_amount, PRICE_BLOCK_PAGES, PRICE_PER_BLOCK]
    omega
  · intro h
    simp [calc_base_amount, PRICE_BLOCK_PAGES, PRICE_PER_BLOCK]
    omega

/-- Witness for C4 at 26 pages. -/
theorem calc_base_amount_spec_witness :
    1 ≤ 26
    ∧ (calc_base_amount 26 = ⌈((26 : Nat) : ℚ) / 25⌉₊ * 25
       ∧ calc_base_amount 26 ≠ 0
       ∧ (26 % 25 ≠ 0 → calc_base_amount (26 + 1) = calc_base_amount 26)
       ∧ (26 % 25 = 0 → calc_base_amount (26 + 1) = calc_base_amount 26 + 25)
       ∧ calc_base_amount 1 = 25 ∧ calc_base_amount 26 = 50) :=
  ⟨by decide, calc_base_amount_spec 26 (by decide)⟩

/-- C2: for every job record carrying one of the configured retention
values, the reaper's deletion-eligibility predicate holds iff the status
is terminal, the creation timestamp is present, and either the
one-hour-after-done rule (retention 0, requiring `doneAt`) or the
days-after-creation rule (retention 7 or 30) has elapsed; a job that is
not in a terminal status is never deleted. -/
theorem should_delete_spec (job : Job) (now : Nat) (r : Int)
    (hrf : job.retention_days = some r) (hr : r = 0 ∨ r = 7 ∨ r = 30) :
    (should_delete job now = true ↔
      ((job.status = "done" ∨ job.status = "failed")
        ∧ job.created_at.isSome
        ∧ ((r = 0 ∧ ∃ d, job.done_at = some d
              ∧ (now : Int) ≥ (d : Int) + RETENTION_ZERO_DONE_BUFFER_SECONDS)
           ∨ ((r = 7 ∨ r = 30) ∧ ∃ c, job.created_at = some c
              ∧ (now : Int) ≥ (c : Int) + r * SECONDS_PER_DAY))))
    ∧ (¬ (job.status = "done" ∨ job.status = "failed") → should_delete job now = false) := by
  refine ⟨?_, fun hs => by simp [should_delete, hs]⟩
  unfold should_delete
  by_cases hs : job.status = "done" ∨ job.status = "failed"
  · rw [if_neg (not_not_intro hs)]
    cases hc : job.created_at with
    | none => simp [hs]
    | some c =>
      simp only [hrf, Option.getD_some, hs, Option.isSome_some, true_and]
      rcases hr with h0 | h7 | h30
      · rw [if_pos h0]
        cases hd : job.done_at with
        | none =>
          constructor
          · intro h
            simp at h
          · rintro (⟨-, d, hd2, -⟩ | ⟨h730, -⟩)
            · simp at hd2
            · omega
        | some d =>
          rw [decide_eq_true_eq]
          constructor
          · intro h
            exact Or.inl ⟨h0, d, rfl, h⟩
          · rintro (⟨-, d', hd2, h⟩ | ⟨h730, -⟩)
            · obtain rfl := Option.some.inj hd2
              exact h
            · omega
      · rw [if_neg (by omega), decide_eq_true_eq]
        constructor
        · intro h
          exact Or.inr ⟨Or.inl h7, c, rfl, h⟩
        · rintro (⟨h0, -⟩ | ⟨-, c', hc2, h⟩)
          · omega
          · obtain rfl := Option.some.inj hc2
            exact h
      · rw [if_neg (by omega), decide_eq_true_eq]
        constructor
        · intro h
          exact Or.inr ⟨Or.inr h30, c, rfl, h⟩
        · rintro (⟨h0, -⟩ | ⟨-, c', hc2, h⟩)
          · omega
          · obtain rfl := Option.some.inj hc2
            exact h
  · simp [hs]

/-- Concrete terminal job with retention 0, done at time 0, for the C2
witness. -/
def jobRetZero : Job :=
  { id := "job_a"
    created_at := some 0
    updated_at := 0
    status := "done"
    email := "a@b.com"
    pages := 3
    base_amount_due := 25
    amount_due := 0
    paid := true
    free_sample_applied := true
    retention_days := some 0
    done_at := some 0
    input_pdf := "uploads/job_a/input.pdf"
    bridge_request := none
    output_xlsx := none
    bundle_zip := none }

/-- Witness for C2: the retention-0 job done at time 0, examined at one
hour. -/
theorem should_delete_spec_witness :
    jobRetZero.retention_days = some 0
    ∧ ((0 : Int) = 0 ∨ (0 : Int) = 7 ∨ (0 : Int) = 30)
    ∧ ((should_delete jobRetZero 3600 = true ↔
         ((jobRetZero.status = "done" ∨ jobRetZero.status = "failed")
           ∧ jobRetZero.created_at.isSome
           ∧ (((0 : Int) = 0 ∧ ∃ d, jobRetZero.done_at = some d
                 ∧ ((3600 : Nat) : Int) ≥ (d : Int) + RETENTION_ZERO_DONE_BUFFER_SECONDS)
              ∨ (((0 : Int) = 7 ∨ (0 : Int) = 30) ∧ ∃ c, jobRetZero.created_at = some c
                 ∧ ((3600 : Nat) : Int) ≥ (c : Int) + 0 * SECONDS_PER_DAY))))
       ∧ (¬ (jobRetZero.status = "done" ∨ jobRetZero.status = "failed") →
           should_delete jobRetZero 3600 = false)) :=
  ⟨rfl, by decide, should_delete_spec jobRetZero 3600 0 rfl (by decide)⟩

/-- C10: when the `retention_days` field is absent the reaper defaults it
to 7, so a job with no such field is eligible exactly when its status is
terminal and now is at least seven days past its creation timestamp. -/
theorem should_delete_default_retention (job : Job) (now : Nat)
    (hrf : job.retention_days = none) :
    should_delete job now = true ↔
      ((job.status = "done" ∨ job.status = "failed")
        ∧ ∃ c, job.created_at = some c
          ∧ (now : Int) ≥ (c : Int) + 7 * SECONDS_PER_DAY) := by
  unfold should_delete
  by_cases hs : job.status = "done" ∨ job.status = "failed"
  · simp only [hs, not_true_eq_false, if_false, true_and]
    cases hc : job.created_at with
    | none => simp [hc]
    | some c =>
      simp only [hrf, Option.getD_none]
      rw [if_neg (by omega)]
      simp only [decide_eq_true_eq]
      constructor
      · intro h
        exact ⟨c, rfl, h⟩
      · rintro ⟨c', hc', h⟩
        cases Option.some.inj hc'
        exact h
  · simp [hs]

/-- Concrete terminal job with no retention field, for the C10 witness. -/
def jobNoRetention : Job :=
  { jobRetZero with id := "job_b", retention_days := none, done_at := none }

/-- Witness for C10: a job with no `retention_days` field, examined at
seven days after creation. -/
theorem should_delete_default_retention_witness :
    jobNoRetention.retention_days = none
    ∧ (should_delete jobNoRetention 604800 = true ↔
        ((jobNoRetention.status = "done" ∨ jobNoRetention.status = "failed")
          ∧ ∃ c, jobNoRetention.created_at = some c
            ∧ ((604800 : Nat) : Int) ≥ (c : Int) + 7 * SECONDS_PER_DAY)) :=
  ⟨rfl, should_delete_default_retention jobNoRetention 604800 rfl⟩

/-- C7 (code behaviour at the failing input): with a corrupted ledger
file, the eligibility check still grants the free sample to an ordinary
email: the fallback map blocks only the literal sentinel key, so the
code does not deny free samples while the ledger is corrupted, contrary
to its own fail-closed comment. -/
theorem corrupted_ledger_grants_free_sample :
    email_can_use_free_sample "alice@example.com" LedgerFile.corrupted 0 = true
    ∧ "alice@example.com" ≠ "__CORRUPTED__"
    ∧ email_can_use_free_sample "__CORRUPTED__" LedgerFile.corrupted 0 = false := by
  refine ⟨?_, by decide, ?_⟩ <;> simp [email_can_use_free_sample, read_ledger]

/-- Counterexample to C8: the trace of filesystem operations performed by
`write_bridge_request` for a concrete job is a single direct write of the
request path, not a write-to-temporary-then-atomic-rename. -/
theorem write_bridge_request_not_atomic :
    ¬ atomic_temp_rename (write_bridge_request_trace "job_a" "snapshot")
        (bridge_req_path "job_a") := by
  rintro ⟨tmp, c, -, heq⟩
  simp [write_bridge_request_trace] at heq

/-- C8 as amended: a bridge request is a single self-contained file named
by the job id, but it is produced by one direct write (no rename at all);
it is the worker's `write_json` (job records, results, metadata) that
writes to a temporary file and atomically renames it into place. -/
theorem bridge_queue_write_shape (job_id content path c : String) :
    write_bridge_request_trace job_id content
      = [FsOp.write (bridge_req_path job_id) content]
    ∧ (∀ op, op ∈ write_bridge_request_trace job_id content →
        ∀ s d, op ≠ FsOp.replaceOp s d)
    ∧ atomic_temp_rename (write_json_trace path c) path := by
  refine ⟨rfl, ?_, ⟨path ++ ".tmp", c, ?_, rfl⟩⟩
  · intro op hop s d
    simp only [write_bridge_request_trace, List.mem_singleton] at hop
    subst hop
    simp
  · intro h
    have hlen := congrArg String.length h
    rw [String.length_append] at hlen
    have h4 : ".tmp".length = 4 := rfl
    omega

/-- C9: when the conversion raises for a queued job, the worker loop's
exception handler deletes the request file and nothing else: the job
record is untouched (it stays `queued`, no terminal transition), no
bridge result is written, and since the request file is gone it is never
picked up again. -/
theorem worker_exception_drops_request (convert : Job → Except String String)
    (job_id : String) (st : Store) (now : Nat) (job : Job) (e : String)
    (hjob : st.jobs job_id = some job) (hq : job.status = "queued")
    (hconv : convert job = .error e) (hnodup : st.requests.Nodup) :
    handle_request convert job_id st now
      = { st with requests := st.requests.erase job_id }
    ∧ (handle_request convert job_id st now).jobs = st.jobs
    ∧ (handle_request convert job_id st now).jobs job_id = some job
    ∧ job.status = "queued"
    ∧ (handle_request convert job_id st now).results = st.results
    ∧ job_id ∉ (handle_request convert job_id st now).requests := by
  have hmain : handle_request convert job_id st now
      = { st with requests := st.requests.erase job_id } := by
    simp [handle_request, process_request, hjob, hconv]
  refine ⟨hmain, by rw [hmain], by rw [hmain]; exact hjob, hq, by rw [hmain], ?_⟩
  rw [hmain]
  intro hmem
  exact ((hnodup.mem_erase_iff).mp hmem).1 rfl

/-- Concrete queued job for the C9 witness. -/
def jobQueued : Job :=
  { jobRetZero with id := "job_q", status := "queued", done_at := none }

/-- Concrete store holding the queued job and its request file, for the
C9 witness. -/
def storeQ : Store :=
  { jobs := fun s => if s = "job_q" then some jobQueued else none
    ledger := .missing
    uploads := ["job_q"]
    requests := ["job_q"]
    results := fun _ => none }

/-- A conversion function that always raises, for the C9 witness. -/
def convFail : Job → Except String String := fun _ => .error "conversion_failed"

/-- Witness for C9 on the concrete queued job whose conversion raises. -/
theorem worker_exception_drops_request_witness :
    storeQ.jobs "job_q" = some jobQueued
    ∧ jobQueued.status = "queued"
    ∧ convFail jobQueued = .error "conversion_failed"
    ∧ storeQ.requests.Nodup
    ∧ (handle_request convFail "job_q" storeQ 9
        = { storeQ with requests := storeQ.requests.erase "job_q" }
      ∧ (handle_request convFail "job_q" storeQ 9).jobs = storeQ.jobs
      ∧ (handle_request convFail "job_q" storeQ 9).jobs "job_q" = some jobQueued
      ∧ jobQueued.status = "queued"
      ∧ (handle_request convFail "job_q" storeQ 9).results = storeQ.results
      ∧ "job_q" ∉ (handle_request convFail "job_q" storeQ 9).requests) :=
  ⟨by simp [storeQ], rfl, rfl, by simp [storeQ],
   worker_exception_drops_request convFail "job_q" storeQ 9 jobQueued "conversion_failed"
     (by simp [storeQ]) rfl rfl (by simp [storeQ])⟩

/-- Helper: `start` on a paid job already `queued` is a no-op returning
the current job and leaving the store untouched. -/
theorem start_noop_when_queued (job : Job) (st : Store) (now : Nat)
    (hjob : st.jobs job.id = some job) (hpaid : job.paid = true)
    (hq : job.status = "queued") :
    start job.id st now = .ok (job, st) := by
  simp [start, hjob, hpaid, hq]

/-- Helper: the exact outcome of a successful `start` on a paid job in
status `uploaded` or `paid`: the returned job is the stored one with
status `queued` and the request path recorded, and the store holds the
new job record and the request file. -/
theorem start_success_eq (job : Job) (st : Store) (now : Nat)
    (hjob : st.jobs job.id = some job) (hpaid : job.paid = true)
    (hst : job.status = "uploaded" ∨ job.status = "paid") :
    start job.id st now
      = .ok ({ job with
                 status := "queued"
                 updated_at := now
                 bridge_request := some (bridge_req_path job.id) },
             write_job
               { job with
                 status := "queued"
                 updated_at := now
                 bridge_request := some (bridge_req_path job.id) }
               { st with
                 jobs := fun s => if s = job.id
                   then some { job with status := "queued", updated_at := now }
                   else st.jobs s
                 requests := if job.id ∈ st.requests then st.requests
                   else job.id :: st.requests }) := by
  have hq : ¬ job.status = "queued" := by
    rcases hst with h | h <;> simp [h]
  have hpf : ¬ job.paid = false := by simp [hpaid]
  simp only [start, hjob]
  rw [if_neg hpf, if_neg hq, if_neg (not_not_intro hst)]
  rfl

/-- C1: on an existing job, `start` fails with the payment-required error
whenever `paid` is not true; with `paid` true it is a no-op on a `queued`
job, rejects any status outside `uploaded`/`paid`/`queued` with the
invalid-transition error carrying that status, and otherwise queues the
job, writes exactly one bridge request file for it, and records its path
on the job. -/
theorem start_spec (job_id : String) (st : Store) (now : Nat) (job : Job)
    (hjob : st.jobs job_id = some job) (hid : job.id = job_id) :
    (job.paid = false → start job_id st now = .error .payment_required)
    ∧ (job.paid = true → job.status = "queued" → start job_id st now = .ok (job, st))
    ∧ (job.paid = true → job.status ≠ "queued"
        → ¬ (job.status = "uploaded" ∨ job.status = "paid")
        → start job_id st now = .error (.invalid_status job.status))
    ∧ (job.paid = true → (job.status = "uploaded" ∨ job.status = "paid")
        → job_id ∉ st.requests
        → ∃ j st', start job_id st now = .ok (j, st')
            ∧ j.status = "queued"
            ∧ j.bridge_request = some (bridge_req_path job_id)
            ∧ st'.jobs job_id = some j
            ∧ st'.requests.count job_id = 1) := by
  subst hid
  refine ⟨?_, ?_, ?_, ?_⟩
  · intro hpaid
    simp [start, hjob, hpaid]
  · intro hpaid hq
    exact start_noop_when_queued job st now hjob hpaid hq
  · intro hpaid hq hst
    simp [start, hjob, hpaid, hq, hst]
  · intro hpaid hst hfresh
    refine ⟨_, _, start_success_eq job st now hjob hpaid hst, rfl, rfl, ?_, ?_⟩
    · simp [write_job]
    · show (write_job _ _).requests.count job.id = 1
      simp only [write_job]
      rw [if_neg hfresh]
      simp [List.count_cons_self, List.count_eq_zero.mpr hfresh]

/-- Concrete paid, uploaded job for the C1 and C6 witnesses. -/
def jobUploaded : Job :=
  { jobRetZero with id := "job_u", status := "uploaded", done_at := none }

/-- Concrete store holding the paid uploaded job and no request files,
for the C1 and C6 witnesses. -/
def storeU : Store :=
  { jobs := fun s => if s = "job_u" then some jobUploaded else none
    ledger := .missing
    uploads := ["job_u"]
    requests := []
    results := fun _ => none }

/-- Witness for C1 on the concrete paid uploaded job. -/
theorem start_spec_witness :
    storeU.jobs "job_u" = some jobUploaded
    ∧ jobUploaded.id = "job_u"
    ∧ ((jobUploaded.paid = false → start "job_u" storeU 5 = .error .payment_required)
      ∧ (jobUploaded.paid = true → jobUploaded.status = "queued" →
          start "job_u" storeU 5 = .ok (jobUploaded, storeU))
      ∧ (jobUploaded.paid = true → jobUploaded.status ≠ "queued"
          → ¬ (jobUploaded.status = "uploaded" ∨ jobUploaded.status = "paid")
          → start "job_u" storeU 5 = .error (.invalid_status jobUploaded.status))
      ∧ (jobUploaded.paid = true
          → (jobUploaded.status = "uploaded" ∨ jobUploaded.status = "paid")
          → "job_u" ∉ storeU.requests
          → ∃ j st', start "job_u" storeU 5 = .ok (j, st')
              ∧ j.status = "queued"
              ∧ j.bridge_request = some (bridge_req_path "job_u")
              ∧ st'.jobs "job_u" = some j
              ∧ st'.requests.count "job_u" = 1)) :=
  ⟨by simp [storeU], rfl, start_spec "job_u" storeU 5 jobUploaded (by simp [storeU]) rfl⟩

/-- C6: a successful `start` followed by a second `start` returns the
same queued job and the same store: the second call is a no-op, the
status stays `queued`, and exactly one request file for the job id exists
after both calls. -/
theorem start_idempotent (job : Job) (st : Store) (now now2 : Nat)
    (hjob : st.jobs job.id = some job) (hpaid : job.paid = true)
    (hst : job.status = "uploaded" ∨ job.status = "paid")
    (hfresh : job.id ∉ st.requests) :
    ∃ j st', start job.id st now = .ok (j, st')
      ∧ start job.id st' now2 = .ok (j, st')
      ∧ j.status = "queued"
      ∧ st'.requests.count job.id = 1 := by
  refine ⟨_, _, start_success_eq job st now hjob hpaid hst, ?_, rfl, ?_⟩
  · exact start_noop_when_queued
      { job with
        status := "queued"
        updated_at := now
        bridge_request := some (bridge_req_path job.id) }
      _ now2 (by simp [write_job]) hpaid rfl
  · show (write_job _ _).requests.count job.id = 1
    simp only [write_job]
    rw [if_neg hfresh]
    simp [List.count_cons_self, List.count_eq_zero.mpr hfresh]

/-- Witness for C6 on the concrete paid uploaded job. -/
theorem start_idempotent_witness :
    storeU.jobs jobUploaded.id = some jobUploaded
    ∧ jobUploaded.paid = true
    ∧ (jobUploaded.status = "uploaded" ∨ jobUploaded.status = "paid")
    ∧ jobUploaded.id ∉ storeU.requests
    ∧ (∃ j st', start jobUploaded.id storeU 5 = .ok (j, st')
        ∧ start jobUploaded.id st' 6 = .ok (j, st')
        ∧ j.status = "queued"
        ∧ st'.requests.count jobUploaded.id = 1) :=
  ⟨by decide, rfl, Or.inl rfl, by decide,
   start_idempotent jobUploaded storeU 5 6 (by decide) rfl (Or.inl rfl)
     (by decide)⟩

/-- Helper: the base amount is nonzero for at least one page. -/
theorem calc_base_amount_ne_zero (pages : Nat) (hp : 1 ≤ pages) :
    calc_base_amount pages ≠ 0 := by
  simp only [calc_base_amount, PRICE_BLOCK_PAGES, PRICE_PER_BLOCK]
  omega

/-- C3: an accepted upload of at most `FREE_SAMPLE_MAX_PAGES` pages from
an email with no ledger entry creates the job with zero amount due,
status `uploaded`, `paid` and `freeSampleApplied` true, and adds a ledger
entry for that email referencing the job; any other accepted upload is
created `awaiting_payment`, unpaid, billed the full base amount, and
leaves the ledger untouched. -/
theorem upload_free_sample_spec (job_id email_norm : String) (rd : Int) (pages : Nat)
    (st : Store) (now : Nat)
    (hemail : ¬ (email_norm = "" ∨ ¬ '@' ∈ email_norm.data))
    (hrd : rd = 0 ∨ rd = 7 ∨ rd = 30)
    (hp : 1 ≤ pages) (hcap : pages ≤ MAX_PAGES) :
    (pages ≤ FREE_SAMPLE_MAX_PAGES ∧ (read_ledger st.ledger now).used email_norm = none →
      ∃ j st', upload_pdf job_id email_norm rd pages st now = (.ok j, st')
        ∧ j.amount_due = 0 ∧ j.status = "uploaded" ∧ j.paid = true
        ∧ j.free_sample_applied = true
        ∧ (read_ledger st'.ledger now).used email_norm = some (.entry job_id now))
    ∧ (¬ (pages ≤ FREE_SAMPLE_MAX_PAGES ∧ (read_ledger st.ledger now).used email_norm = none) →
      ∃ j st', upload_pdf job_id email_norm rd pages st now = (.ok j, st')
        ∧ j.status = "awaiting_payment" ∧ j.paid = false
        ∧ j.amount_due = calc_base_amount pages
        ∧ j.base_amount_due = calc_base_amount pages
        ∧ st'.ledger = st.ledger) := by
  have hnocap : ¬ MAX_PAGES < pages := by omega
  constructor
  · rintro ⟨hsmall, hnew⟩
    have happ : (decide (pages ≤ FREE_SAMPLE_MAX_PAGES)
        && email_can_use_free_sample email_norm st.ledger now) = true := by
      simp [email_can_use_free_sample, hsmall, hnew]
    simp only [upload_pdf]
    rw [if_neg hemail, if_neg (not_not_intro hrd), if_neg hnocap]
    rw [happ]
    refine ⟨_, _, rfl, rfl, rfl, rfl, rfl, ?_⟩
    simp [mark_email_used_free_sample, read_ledger]
  · intro hmixed
    have happ : (decide (pages ≤ FREE_SAMPLE_MAX_PAGES)
        && email_can_use_free_sample email_norm st.ledger now) = false := by
      rcases not_and_or.mp hmixed with h | h
      · simp [h]
      · cases hval : (read_ledger st.ledger now).used email_norm with
        | none => exact absurd hval h
        | some v => simp [email_can_use_free_sample, hval]
    have hbase : ¬ calc_base_amount pages = 0 := calc_base_amount_ne_zero pages hp
    simp only [upload_pdf]
    rw [if_neg hemail, if_neg (not_not_intro hrd), if_neg hnocap]
    rw [happ]
    simp only [Bool.false_eq_true, if_false]
    rw [if_neg hbase]
    refine ⟨_, _, rfl, rfl, ?_, rfl, rfl, rfl⟩
    simp [hbase]

/-- Empty filesystem state, for the upload witnesses. -/
def storeEmpty : Store :=
  { jobs := fun _ => none
    ledger := .missing
    uploads := []
    requests := []
    results := fun _ => none }

/-- Witness for C3: a three-page upload for a fresh email on an empty
store. -/
theorem upload_free_sample_spec_witness :
    ¬ (("a@b.com" : String) = "" ∨ ¬ '@' ∈ ("a@b.com" : String).data)
    ∧ ((7 : Int) = 0 ∨ (7 : Int) = 7 ∨ (7 : Int) = 30)
    ∧ 1 ≤ 3 ∧ 3 ≤ MAX_PAGES
    ∧ ((3 ≤ FREE_SAMPLE_MAX_PAGES
          ∧ (read_ledger storeEmpty.ledger 0).used "a@b.com" = none →
        ∃ j st', upload_pdf "job_f" "a@b.com" 7 3 storeEmpty 0 = (.ok j, st')
          ∧ j.amount_due = 0 ∧ j.status = "uploaded" ∧ j.paid = true
          ∧ j.free_sample_applied = true
          ∧ (read_ledger st'.ledger 0).used "a@b.com" = some (.entry "job_f" 0))
      ∧ (¬ (3 ≤ FREE_SAMPLE_MAX_PAGES
              ∧ (read_ledger storeEmpty.ledger 0).used "a@b.com" = none) →
        ∃ j st', upload_pdf "job_f" "a@b.com" 7 3 storeEmpty 0 = (.ok j, st')
          ∧ j.status = "awaiting_payment" ∧ j.paid = false
          ∧ j.amount_due = calc_base_amount 3
          ∧ j.base_amount_due = calc_base_amount 3
          ∧ st'.ledger = storeEmpty.ledger)) :=
  ⟨by decide, by decide, by decide, by decide,
   upload_free_sample_spec "job_f" "a@b.com" 7 3 storeEmpty 0
     (by decide) (by decide) (by decide) (by decide)⟩

/-- C5: an upload whose page count exceeds MAX_PAGES is rejected with the
cap error and the filesystem state is exactly as before the call: no job
record is persisted, the saved upload file is discarded, and the ledger
is untouched. -/
theorem upload_over_cap_rejected (job_id email_norm : String) (rd : Int) (pages : Nat)
    (st : Store) (now : Nat)
    (hemail : ¬ (email_norm = "" ∨ ¬ '@' ∈ email_norm.data))
    (hrd : rd = 0 ∨ rd = 7 ∨ rd = 30)
    (hover : MAX_PAGES < pages) :
    upload_pdf job_id email_norm rd pages st now = (.error .cap_exceeded, st) := by
  simp only [upload_pdf]
  rw [if_neg hemail, if_neg (not_not_intro hrd), if_pos hover]
  rw [List.erase_cons_head]

/-- Witness for C5: a 201-page upload on the empty store. -/
theorem upload_over_cap_rejected_witness :
    ¬ (("a@b.com" : String) = "" ∨ ¬ '@' ∈ ("a@b.com" : String).data)
    ∧ ((7 : Int) = 0 ∨ (7 : Int) = 7 ∨ (7 : Int) = 30)
    ∧ MAX_PAGES < 201
    ∧ upload_pdf "job_x" "a@b.com" 7 201 storeEmpty 0
        = (.error .cap_exceeded, storeEmpty) :=
  ⟨by decide, by decide, by decide,
   upload_over_cap_rejected "job_x" "a@b.com" 7 201 storeEmpty 0
     (by decide) (by decide) (by decide)⟩

end Twickell
